import Mathlib

/-!
Verification of the instance-lifecycle orchestration core of `dask-cloud`
(providers `fly/machine.py` and `ibm/code_engine.py`) against its
natural-language specification.

The Python code is shallowly embedded: methods become pure functions from
explicit state, provider (CloudAPI) interaction is represented by the list of
calls a method issues together with oracles for the provider's responses, and
Python exceptions become an explicit error type.  Unbounded polling loops are
embedded with an explicit fuel argument: a `none` result means the loop is
still running after `fuel` iterations.
-/

/-- Errors raised by the embedded code.  `valueError`, `typeError`,
`attributeError`, `indexError` and `stopIteration` model the Python builtins
actually raised by the source; `provisioningTimeout` and `preconditionError`
model the error taxonomy named by the specification (no code in the repository
defines or raises them). -/
inductive PyErr
  | valueError (msg : String)
  | typeError (msg : String)
  | attributeError (msg : String)
  | indexError
  | stopIteration
  | provisioningTimeout
  | preconditionError
  deriving DecidableEq, Repr

/-- Python dict of environment variables, modelled as a partial map. -/
def EnvMap : Type := String → Option String

/-- A Fly machine handle as returned by `create_machine` (the fields the
source reads: `.id` and `.private_ip`). -/
structure FlyMachineResp where
  id : String
  private_ip : String
  deriving DecidableEq, Repr

/-- `machines.FlyMachineConfigGuest(cpu_kind="shared", cpus=..., memory_mb=...)`. -/
structure FlyGuest where
  cpu_kind : String
  cpus : Nat
  memory_mb : Nat
  deriving DecidableEq, Repr

/-- `machines.FlyMachineRequestConfigServicesPort`. -/
structure FlyServicePort where
  port : Nat
  handlers : List String
  deriving DecidableEq, Repr

/-- `machines.FlyMachineConfigServices`. -/
structure FlyService where
  ports : List FlyServicePort
  protocol : String
  internal_port : Nat
  deriving DecidableEq, Repr

/-- `machines.FlyMachineConfigProcess`. -/
structure FlyProcess where
  name : String
  cmd : List String
  env : EnvMap
  user : String
  entrypoint : List String

/-- `machines.FlyMachineConfig` (metadata/restart/metrics, which the claims do
not mention, are omitted). -/
structure FlyMachineConfig where
  env : EnvMap
  image : Option String
  services : List FlyService
  guest : FlyGuest
  size : Option String
  processes : List FlyProcess

/-- Payload of `code_engine_service.create_app` in `IBMCodeEngine.create_vm`
(the `run_env_variables` entry, which carries the serialized dask config and
is irrelevant to the claims, is omitted). -/
structure IbmCreateAppPayload where
  project_id : String
  image_reference : String
  name : String
  run_commands : List String
  image_port : Nat
  scale_ephemeral_storage_limit : String
  scale_cpu_limit : String
  scale_min_instances : Nat
  scale_memory_limit : String
  deriving DecidableEq, Repr

/-- Payload of `code_engine_service.create_job_run` in
`IBMCodeEngine.create_vm` (worker branch). -/
structure IbmJobRunPayload where
  project_id : String
  image_reference : String
  name : String
  run_commands : List String
  scale_ephemeral_storage_limit : String
  scale_cpu_limit : String
  scale_memory_limit : String
  deriving DecidableEq, Repr

/-- The CloudAPI calls the embedded code can issue. -/
inductive ApiCall
  | createApp (app_name : String)
  | deleteApp (app_name : String)
  | flyCreateMachine (config : FlyMachineConfig) (app_name : Option String)
      (name : String) (region : Option String)
  | flyDeleteMachine (app_name : Option String) (machine_id : String) (force : Bool)
  | ibmCreateApp (payload : IbmCreateAppPayload)
  | ibmCreateJobRun (payload : IbmJobRunPayload)
  | ibmCreateConfigMap (project_id : String) (name : String)
  | ibmDeleteApp (project_id : String) (name : String)
  | ibmDeleteJobRun (project_id : String) (name : String)

/-! ### String helpers embedding Python's string operations -/

/-- Python `sep.join(parts)`. -/
def pyJoin (sep : String) : List String → String
  | [] => ""
  | x :: xs =>
    match xs with
    | [] => x
    | _ :: _ => x ++ sep ++ pyJoin sep xs

/-- Does `l` start with `p`?  (Embedding of Python `str.startswith`, on
character lists.) -/
def listStartsWith : List Char → List Char → Bool
  | [], _ => true
  | _ :: _, [] => false
  | a :: as, b :: bs => a == b && listStartsWith as bs

/-- Does `sub` occur contiguously inside `l`?  (Embedding of Python's
`sub in s` substring test, on character lists.) -/
def listHasSeq (sub : List Char) : List Char → Bool
  | [] => listStartsWith sub []
  | c :: t => listStartsWith sub (c :: t) || listHasSeq sub t

/-- Python `sub in s` on strings. -/
def pyInStr (sub s : String) : Bool := listHasSeq sub.data s.data

/-- Python `s.startswith(p)`. -/
def pyStartsWith (p s : String) : Bool := listStartsWith p.data s.data

/-- `s` contains `sub` verbatim (as a contiguous substring). -/
def containsVerbatim (s sub : String) : Prop :=
  ∃ pre post : String, s = pre ++ sub ++ post

/-- Python `s.split()` (whitespace split, empty tokens dropped; the commands in
this repository only ever contain plain spaces). -/
def splitWsChars : List Char → List Char → List (List Char)
  | [], acc => if acc.isEmpty then [] else [acc.reverse]
  | c :: rest, acc =>
    if c = ' ' then
      if acc.isEmpty then splitWsChars rest [] else acc.reverse :: splitWsChars rest []
    else splitWsChars rest (c :: acc)

/-- Python `s.split()` on strings. -/
def pySplitWs (s : String) : List String :=
  (splitWsChars s.data []).map fun l => String.mk l

/-- Python `s.split("//")`, specialised to the separator `"//"` used by
`IBMCodeEngine.create_vm` on the endpoint URLs. -/
def splitDslashChars (l : List Char) (acc : List Char) : List (List Char) :=
  match l with
  | [] => [acc.reverse]
  | c :: rest =>
    if listStartsWith ['/', '/'] (c :: rest) then
      acc.reverse :: splitDslashChars rest.tail []
    else
      splitDslashChars rest (c :: acc)
termination_by l.length
decreasing_by
  · simp only [List.length_cons, List.length_tail]
    omega
  · simp only [List.length_cons]
    omega

/-- Python `s.split("//")` on strings. -/
def pySplitDslash (s : String) : List String :=
  (splitDslashChars s.data []).map fun l => String.mk l

/-- Python `lst[1]`: the second element, or an `IndexError`. -/
def pyIndex1 (l : List String) : Except PyErr String :=
  match l with
  | _ :: x :: _ => .ok x
  | _ => .error .indexError

/-! ### Basic lemmas about the string helpers -/

theorem pyJoin_cons_of_ne_nil (sep x : String) (xs : List String) (h : xs ≠ []) :
    pyJoin sep (x :: xs) = x ++ sep ++ pyJoin sep xs := by
  cases xs with
  | nil => exact absurd rfl h
  | cons y ys => rfl

theorem listStartsWith_iff : ∀ p l : List Char,
    listStartsWith p l = true ↔ ∃ t, l = p ++ t := by
  intro p
  induction p with
  | nil => intro l; simp [listStartsWith]
  | cons a as ih =>
    intro l
    cases l with
    | nil =>
      simp only [listStartsWith, List.cons_append]
      constructor
      · intro h; exact absurd h (by simp)
      · rintro ⟨t, ht⟩; exact absurd ht (by simp)
    | cons b bs =>
      simp only [listStartsWith, Bool.and_eq_true, beq_iff_eq, ih, List.cons_append]
      constructor
      · rintro ⟨rfl, t, rfl⟩; exact ⟨t, rfl⟩
      · rintro ⟨t, ht⟩
        injection ht with h1 h2
        exact ⟨h1.symm, t, h2⟩

theorem listHasSeq_iff : ∀ (sub l : List Char),
    listHasSeq sub l = true ↔ ∃ p q, l = p ++ sub ++ q := by
  intro sub
  intro l
  induction l with
  | nil =>
    simp only [listHasSeq, listStartsWith_iff]
    constructor
    · rintro ⟨t, ht⟩
      exact ⟨[], t, by simpa using ht⟩
    · rintro ⟨p, q, h⟩
      refine ⟨q, ?_⟩
      rcases List.append_eq_nil.mp h.symm with ⟨h1, h2⟩
      rcases List.append_eq_nil.mp h1 with ⟨rfl, rfl⟩
      simpa using h
  | cons c t ih =>
    simp only [listHasSeq, Bool.or_eq_true, listStartsWith_iff, ih]
    constructor
    · rintro (⟨q, hq⟩ | ⟨p, q, hq⟩)
      · exact ⟨[], q, by simpa using hq⟩
      · exact ⟨c :: p, q, by simp [hq]⟩
    · rintro ⟨p, q, hq⟩
      cases p with
      | nil => exact Or.inl ⟨q, by simpa using hq⟩
      | cons c' p' =>
        right
        injection hq with h1 h2
        exact ⟨p', q, h2⟩

theorem string_data_append (a b : String) : (a ++ b).data = a.data ++ b.data := by
  cases a; cases b; rfl

theorem pyInStr_iff (sub s : String) :
    pyInStr sub s = true ↔ containsVerbatim s sub := by
  unfold pyInStr containsVerbatim
  rw [listHasSeq_iff]
  constructor
  · rintro ⟨p, q, h⟩
    refine ⟨String.mk p, String.mk q, String.ext ?_⟩
    rw [string_data_append, string_data_append]
    exact h
  · rintro ⟨pre, post, h⟩
    refine ⟨pre.data, post.data, ?_⟩
    rw [h, string_data_append, string_data_append]

/-- Any element of the joined list occurs verbatim in a Python `" ".join`. -/
theorem pyJoin_containsVerbatim : ∀ (l1 : List String) (s : String) (l2 : List String),
    containsVerbatim (pyJoin " " (l1 ++ s :: l2)) s := by
  intro l1
  induction l1 with
  | nil =>
    intro s l2
    cases l2 with
    | nil => exact ⟨"", "", by simp [pyJoin]⟩
    | cons y ys =>
      refine ⟨"", " " ++ pyJoin " " (y :: ys), ?_⟩
      rw [List.nil_append, pyJoin_cons_of_ne_nil " " s (y :: ys) (by simp)]
      simp [String.append_assoc]
  | cons a l1' ih =>
    intro s l2
    obtain ⟨p, q, hpq⟩ := ih s l2
    refine ⟨a ++ " " ++ p, q, ?_⟩
    rw [List.cons_append, pyJoin_cons_of_ne_nil " " a (l1' ++ s :: l2) (by simp), hpq]
    simp [String.append_assoc]

/-! ### Fly.io provider: `dask_cloudprovider/fly/machine.py` -/

/-- Value of `FlyMachineCluster.app`: `None`, the app handle returned by the
provider, or the literal string `"failed"` set when creation failed. -/
inductive FlyAppVal
  | handle (h : String)
  | failedStr
  deriving DecidableEq, Repr

/-- The cluster-level state read and written by `FlyMachineCluster.create_app`
/ `delete_app` / `wait_for_app` (`self.app`, `self.app_name`). -/
structure FlyClusterState where
  app : Option FlyAppVal
  app_name : Option String
  deriving DecidableEq, Repr

/-- State of one `FlyMachine` after `__init__` (fields the verified claims
read; `gpu_instance`, `bootstrap`, `extra_bootstrap`, `metadata`, `restart`
are omitted as constants never consulted by the claims). -/
structure FlyMachineState where
  machine : Option FlyMachineResp
  app_name : Option String
  api_token : String
  region : Option String
  vm_size : Option String
  cpus : Nat
  memory_mb : Nat
  image : Option String
  env_vars : EnvMap
  set_env : String
  address : Option String
  host : Option String
  internal_ip : Option String
  port : Option Nat
  external_address : Option String

/-- `'DASK_INTERNAL__INHERIT_CONFIG="{}"'.format(dask.config.serialize(...))`,
as a function of the serialized config. -/
def flySetEnv (serialized : String) : String :=
  "DASK_INTERNAL__INHERIT_CONFIG=\"" ++ serialized ++ "\""

/-- The `EXTRA_PIP_PACKAGES` mutation at the end of `FlyMachine.__init__`:
append `"dask[distributed]"` to an existing entry, else create the entry
`" dask[distributed]"`. -/
def flyEnvUpdate (d : EnvMap) : EnvMap :=
  match d "EXTRA_PIP_PACKAGES" with
  | some v => fun k => if k = "EXTRA_PIP_PACKAGES" then some (v ++ "dask[distributed]") else d k
  | none => fun k => if k = "EXTRA_PIP_PACKAGES" then some " dask[distributed]" else d k

/-- `FlyMachine.__init__`.  The constructor performs no CloudAPI call (the
empty call list), and can fail: `ValueError` when `cluster.api_token` is
`None`, `TypeError` when `env_vars` is `None` (the membership test
`"EXTRA_PIP_PACKAGES" in self.env_vars` on `None`).  Note `self.cpus` and
`self.memory_mb` are assigned the literals `1` and `1024`; the `cpus` and
`memory_mb` parameters are never read. -/
def flyMachineInit (cluster_api_token : Option String) (cluster_app_name : Option String)
    (region vm_size : Option String) (memory_mb cpus : Option Nat)
    (image : Option String) (env_vars : Option EnvMap) (serialized_config : String) :
    List ApiCall × Except PyErr FlyMachineState :=
  match cluster_api_token with
  | none => ([], .error (.valueError "Fly.io API token must be provided"))
  | some tok =>
    match env_vars with
    | none => ([], .error (.typeError "argument of type NoneType is not iterable"))
    | some d =>
      ([], .ok
        { machine := none
          app_name := cluster_app_name
          api_token := tok
          region := region
          vm_size := vm_size
          cpus := 1
          memory_mb := 1024
          image := image
          env_vars := flyEnvUpdate d
          set_env := flySetEnv serialized_config
          address := none
          host := none
          internal_ip := none
          port := none
          external_address := none })

/-- The `FlyMachineConfig` payload built at the top of `FlyMachine.create_vm`,
as a function of the machine state and `self.command`. -/
def flyMachineConfigOf (st : FlyMachineState) (command : String) : FlyMachineConfig :=
  { env := st.env_vars
    image := st.image
    services :=
      [ { ports := [ { port := 80, handlers := ["http"] },
                     { port := 443, handlers := ["http", "tls"] },
                     { port := 8786, handlers := ["http", "tls"] } ]
          protocol := "tcp"
          internal_port := 8786 },
        { ports := [ { port := 8787, handlers := ["http", "tls"] } ]
          protocol := "tcp"
          internal_port := 8787 } ]
    guest := { cpu_kind := "shared", cpus := st.cpus, memory_mb := st.memory_mb }
    size := st.vm_size
    processes := [ { name := "app", cmd := [command], env := st.env_vars,
                     user := "root", entrypoint := ["/bin/bash", "-c"] } ] }

/-- Python `str(x)` on an optional string attribute (used where the source
interpolates `self.cluster.app_name`, which may be `None`). -/
def pyStr (o : Option String) : String := o.getD "None"

/-- `FlyMachine.create_vm`, after `wait_for_app` has returned: issues
`create_machine` and records the machine handle, address, host, internal ip
and port.  `resp` is the provider's response.  Returns the pair
`(self.address, self.external_address)` the method returns. -/
def flyCreateVm (st : FlyMachineState) (name command : String) (resp : FlyMachineResp) :
    FlyMachineState × List ApiCall × (String × Option String) :=
  let addr := "tcp://[" ++ resp.private_ip ++ "]:8786"
  ({ st with machine := some resp
             address := some addr
             host := some (resp.id ++ ".vm." ++ pyStr st.app_name ++ ".internal")
             internal_ip := some resp.private_ip
             port := some 8786 },
   [.flyCreateMachine (flyMachineConfigOf st command) st.app_name name st.region],
   (addr, st.external_address))

/-- `FlyMachine.destroy_vm`: a no-op when `self.machine is None`; otherwise
issues `delete_machine(..., force=True)`.  The `machine` field is *not*
cleared afterwards. -/
def flyDestroyVm (st : FlyMachineState) : FlyMachineState × List ApiCall :=
  match st.machine with
  | none => (st, [])
  | some m => (st, [.flyDeleteMachine st.app_name m.id true])

/-- `FlyMachine.wait_for_scheduler`: the loop guard is
`not asyncio.create_task(async_socket_open(...))`; a `Task` object is always
truthy, so the guard is constantly false and the loop body never runs — the
socket-probe oracle is never consulted. -/
def flyTaskTruthy : Bool := true

/-- Number of sleep iterations `wait_for_scheduler` performs before returning,
bounded by `fuel` (`none` would mean still looping).  `socket_open` is the
would-be probe result at each iteration; the code never reads it. -/
def flyWaitForSchedulerIters (socket_open : Nat → Bool) : Nat → Nat → Option Nat
  | 0, _ => none
  | fuel + 1, k => if !flyTaskTruthy then flyWaitForSchedulerIters socket_open fuel (k + 1) else some k

/-- `FlyMachine.wait_for_app` / `FlyMachineCluster.wait_for_app`: loop until
`self.cluster.app` and `self.cluster.app_name` are both set.  Within a single
task neither changes, so the loop either returns at once or never: `none`
models looping forever. -/
def flyWaitForApp (app : Option FlyAppVal) (app_name : Option String) : Option Unit :=
  if app.isSome && app_name.isSome then some () else none

/-- `FlyMachineCluster.create_app`: returns immediately when `self.app_name`
is already set; otherwise issues one `create_app` call with a fresh name.  On
success it stores the handle and the name; on failure it sets `self.app` to
the string `"failed"` (leaving `app_name` unset) and re-raises. -/
def flyCreateApp (st : FlyClusterState) (fresh_name : String)
    (api : String → Except PyErr String) :
    FlyClusterState × List ApiCall × Except PyErr Unit :=
  match st.app_name with
  | some _ => (st, [], .ok ())
  | none =>
    match api fresh_name with
    | .ok h => ({ app := some (.handle h), app_name := some fresh_name },
                [.createApp fresh_name], .ok ())
    | .error e => ({ st with app := some .failedStr }, [.createApp fresh_name], .error e)

/-- `FlyMachineCluster.delete_app`: a no-op when `self.app_name is None`;
otherwise issues `delete_app`.  Neither `app` nor `app_name` is cleared
afterwards. -/
def flyDeleteApp (st : FlyClusterState) : FlyClusterState × List ApiCall :=
  match st.app_name with
  | none => (st, [])
  | some n => (st, [.deleteApp n])

/-- `FlyMachineWorker.__init__`: `self.command = " ".join([self.set_env,
"dask", "worker", self.scheduler] + cli_keywords(worker_options, ...))`.
`cli` stands for the externally computed `cli_keywords` list. -/
def flyWorkerCommand (set_env scheduler : String) (cli : List String) : String :=
  pyJoin " " ([set_env, "dask", "worker", scheduler] ++ cli)

/-- `FlyMachineScheduler.__init__`: the scheduler command. -/
def flySchedulerCommand (set_env : String) (cli : List String) : String :=
  pyJoin " " ([set_env, "dask", "scheduler"] ++ cli)

/-- `FlyMachineWorker.__init__`: worker name with a random suffix. -/
def flyWorkerName (cluster_uuid suffix : String) : String :=
  "dask-" ++ cluster_uuid ++ "-worker-" ++ suffix

/-- `FlyMachineScheduler.__init__`: deterministic scheduler name. -/
def flySchedulerName (cluster_uuid : String) : String :=
  "dask-" ++ cluster_uuid ++ "-scheduler"

/-! ### IBM Code Engine provider: `dask_cloudprovider/ibm/code_engine.py` -/

/-- The fields of a `get_app` response that `IBMCodeEngine.create_vm` reads:
`app["status"]`, `app["name"]`, `app["endpoint_internal"]`, `app["endpoint"]`. -/
structure IbmAppResp where
  status : String
  name : String
  endpoint_internal : String
  endpoint : String
  deriving DecidableEq, Repr

/-- The command munging at the top of `IBMCodeEngine.create_vm` (scheduler
branch): split `self.command` on whitespace, slice from the first component
starting with `"python"` (`components.index(next(filter(...)))`; `next` on an
empty filter raises `StopIteration`), re-join, append
`' --protocol ws,tcp --port 8786,8001'`, and split again. -/
def ibmPythonCommand (command : String) : Except PyErr (List String) :=
  let components := pySplitWs command
  match components.dropWhile (fun x => !pyStartsWith "python" x) with
  | [] => .error .stopIteration
  | l => .ok (pySplitWs (pyJoin " " l ++ " --protocol ws,tcp --port 8786,8001"))

/-- The `create_app` payload of the scheduler branch of
`IBMCodeEngine.create_vm`: every `scale_*` limit is a literal. -/
def ibmSchedPayload (project_id image name : String) (run_commands : List String) :
    IbmCreateAppPayload :=
  { project_id := project_id
    image_reference := image
    name := name
    run_commands := run_commands
    image_port := 8786
    scale_ephemeral_storage_limit := "1G"
    scale_cpu_limit := "0.25"
    scale_min_instances := 1
    scale_memory_limit := "1G" }

/-- The `create_job_run` payload of the worker branch of
`IBMCodeEngine.create_vm`: every `scale_*` limit is a literal. -/
def ibmWorkerPayload (project_id image name : String) (run_commands : List String) :
    IbmJobRunPayload :=
  { project_id := project_id
    image_reference := image
    name := name
    run_commands := run_commands
    scale_ephemeral_storage_limit := "1G"
    scale_cpu_limit := "0.25"
    scale_memory_limit := "1G" }

/-- The `while True` readiness poll of the scheduler branch: fetch the app
(the oracle `get_app` gives the `k`-th response) until `status == "ready"`.
The source loop has no timeout; `fuel` only truncates the embedding, and a
`none` result means the loop is still running after `fuel` polls. -/
def ibmPoll (get_app : Nat → IbmAppResp) : Nat → Nat → Option IbmAppResp
  | 0, _ => none
  | fuel + 1, k =>
    if (get_app k).status = "ready" then some (get_app k)
    else ibmPoll get_app fuel (k + 1)

/-- The scheduler branch of `IBMCodeEngine.create_vm` after the payload is
built: issue `create_app`, poll until ready, then read the two URLs with
`app[...].split("//")[1]`. -/
def ibmCreateVmSchedGo (project_id image name : String) (pc : List String)
    (get_app : Nat → IbmAppResp) (fuel : Nat) :
    List ApiCall × Option (Except PyErr (Option String × Option String)) :=
  ([.ibmCreateApp (ibmSchedPayload project_id image name pc)],
   match ibmPoll get_app fuel 0 with
   | none => none
   | some app =>
     some (match pyIndex1 (pySplitDslash app.endpoint_internal) with
       | .error e => .error e
       | .ok internal_url =>
         match pyIndex1 (pySplitDslash app.endpoint) with
         | .error e => .error e
         | .ok public_url => .ok (some internal_url, some public_url)))

/-- `IBMCodeEngine.create_vm`.  The branch is chosen by
`type(self.command) is not list`: a string command is the scheduler path, a
list command the worker path.  The worker path issues `create_config_map` and
`create_job_run` and returns `(None, None)`. -/
def ibmCreateVm (project_id image name : String) (command : String ⊕ List String)
    (get_app : Nat → IbmAppResp) (fuel : Nat) :
    List ApiCall × Option (Except PyErr (Option String × Option String)) :=
  match command with
  | .inl s =>
    match ibmPythonCommand s with
    | .error e => ([], some (.error e))
    | .ok pc => ibmCreateVmSchedGo project_id image name pc get_app fuel
  | .inr pc =>
    ([.ibmCreateConfigMap project_id name,
      .ibmCreateJobRun (ibmWorkerPayload project_id image name pc)],
     some (.ok (none, none)))

/-- `IBMCodeEngine.destroy_vm`: the delete operation is selected purely by the
substring test `"worker" in self.name`. -/
def ibmDestroyVm (project_id name : String) : ApiCall :=
  if pyInStr "worker" name then .ibmDeleteJobRun project_id name
  else .ibmDeleteApp project_id name

/-- `json.dumps({"cls": worker_class, "opts": {**worker_options, "name":
name}})` in `IBMCodeEngineWorker.__init__`, for string-valued options (the
options used here carry no characters that need JSON escaping). -/
def jsonDumpsSpec (worker_class : String) (worker_options : List (String × String))
    (name : String) : String :=
  "\x7b\"cls\": \"" ++ worker_class ++ "\", \"opts\": \x7b" ++
    pyJoin ", "
      (((worker_options.filter fun p => p.1 ≠ "name") ++ [("name", name)]).map
        fun p => "\"" ++ p.1 ++ "\": \"" ++ p.2 ++ "\"") ++
    "\x7d\x7d"

/-- State of an `IBMCodeEngineWorker` after `__init__`. -/
structure IbmWorkerState where
  worker_class : String
  worker_options : List (String × String)
  command : List String
  deriving DecidableEq, Repr

/-- Attribute named in the `AttributeError` raised when
`self.cluster.scheduler_internal_ip` is read before `start_scheduler` has
recorded it. -/
def ibmSchedIpAttr : String := "scheduler_internal_ip"

/-- `IBMCodeEngineWorker.__init__`: reads
`self.cluster.scheduler_internal_ip` (an `AttributeError` when the scheduler
has not started, i.e. the attribute is absent) and builds the command list
around `f"ws://{...}:80"`.  The constructor issues no CloudAPI call. -/
def ibmWorkerInit (scheduler_internal_ip : Option String) (name : String)
    (worker_class : String) (worker_options : List (String × String)) :
    List ApiCall × Except PyErr IbmWorkerState :=
  match scheduler_internal_ip with
  | none => ([], .error (.attributeError ibmSchedIpAttr))
  | some ip =>
    ([], .ok
      { worker_class := worker_class
        worker_options := worker_options
        command :=
          ["python", "-m", "distributed.cli.dask_spec", "ws://" ++ ip ++ ":80",
           "--spec", jsonDumpsSpec worker_class worker_options name] })

/-! ### Concurrency model for `FlyMachineCluster.create_app`

`create_app` has exactly one suspension point: the awaited provider
`create_app` call.  `flyTaskStep` is `flyCreateApp` split at that point so
that concurrent invocations can interleave; running one task's two steps
back-to-back recovers `flyCreateApp` (see `flyTaskStep_seq_eq_createApp`). -/

/-- Where one `create_app` task stands: not yet run, suspended at the awaited
provider call (carrying the generated name and the provider's pending
result), or finished. -/
inductive CreateAppPhase
  | entry
  | awaiting (name : String) (res : Except PyErr String)
  | finished

/-- One cooperative step of a `create_app` task. -/
def flyTaskStep (api : String → Except PyErr String) (fresh : String) :
    FlyClusterState × List ApiCall × CreateAppPhase →
    FlyClusterState × List ApiCall × CreateAppPhase
  | (st, calls, .entry) =>
    match st.app_name with
    | some _ => (st, calls, .finished)
    | none => (st, calls ++ [.createApp fresh], .awaiting fresh (api fresh))
  | (st, calls, .awaiting n res) =>
    match res with
    | .ok h => ({ app := some (.handle h), app_name := some n }, calls, .finished)
    | .error _ => ({ st with app := some .failedStr }, calls, .finished)
  | (st, calls, .finished) => (st, calls, .finished)

/-- Run two `create_app` tasks (with fresh names `fa`, `fb`) under a given
interleaving: `false` schedules task A for one step, `true` task B. -/
def flyRunPair (api : String → Except PyErr String) (fa fb : String) :
    List Bool → FlyClusterState × List ApiCall × CreateAppPhase × CreateAppPhase →
    FlyClusterState × List ApiCall × CreateAppPhase × CreateAppPhase
  | [], s => s
  | b :: rest, (st, calls, pa, pb) =>
    if b then
      let r := flyTaskStep api fb (st, calls, pb)
      flyRunPair api fa fb rest (r.1, r.2.1, pa, r.2.2)
    else
      let r := flyTaskStep api fa (st, calls, pa)
      flyRunPair api fa fb rest (r.1, r.2.1, r.2.2, pb)

/-- `create_app` invoked `n` times sequentially (each call completing before
the next starts), accumulating the CloudAPI calls issued. -/
def flySeqCreateApp (api : String → Except PyErr String) (fresh : Nat → String) :
    Nat → FlyClusterState → FlyClusterState × List ApiCall
  | 0, st => (st, [])
  | n + 1, st =>
    let r := flyCreateApp st (fresh n) api
    let rest := flySeqCreateApp api fresh n r.1
    (rest.1, r.2.1 ++ rest.2)

/-- Sanity check: a task stepped twice in isolation computes exactly
`flyCreateApp`. -/
theorem flyTaskStep_seq_eq_createApp (api : String → Except PyErr String)
    (fresh : String) (st : FlyClusterState) :
    flyTaskStep api fresh (flyTaskStep api fresh (st, [], .entry)) =
      ((flyCreateApp st fresh api).1, (flyCreateApp st fresh api).2.1, .finished) := by
  rcases st with ⟨app, app_name⟩
  cases app_name with
  | some n => rfl
  | none =>
    cases h : api fresh with
    | ok v => simp [flyTaskStep, flyCreateApp, h]
    | error e => simp [flyTaskStep, flyCreateApp, h]

/-! ### Cluster orchestration (modelled from the spec)

The sequencing of scheduler start and worker creation lives in the generic
`VMCluster` framework (`dask_cloudprovider/generic/vmcluster.py`), which is
not part of this repository snapshot.  It is modelled here from the spec's
`ClusterOrchestrator` contract (§4.3, §5): `start_scheduler()` creates the
application and the scheduler instance, resolves its address and records it;
`add_worker()` constructs a worker — using the source-level
`IBMCodeEngineWorker.__init__`, which fails before any CloudAPI call when the
recorded address is absent — and only then issues the worker's instance
creation call. -/

/-- Observable events of an orchestrator run. -/
inductive OrchEv
  | appCreate
  | schedCreate
  | schedResolved (addr : String)
  | workerCreate (name : String)
  deriving DecidableEq, Repr

/-- Orchestrator state: the scheduler's recorded internal address
(`cluster.scheduler_internal_ip`), absent until `start_scheduler` records
it. -/
structure OrchState where
  schedAddr : Option String
  deriving DecidableEq, Repr

/-- Commands driving the orchestrator.  `startScheduler addr` abstracts a
scheduler start whose address resolution yields `addr`. -/
inductive OrchCmd
  | startScheduler (addr : String)
  | addWorker (name : String)
  deriving DecidableEq, Repr

/-- Modelled from the spec: one orchestrator transition.  `start_scheduler`
creates the app and the scheduler instance, then records the resolved
address; `add_worker` first runs the worker constructor
(`IBMCodeEngineWorker.__init__` from the source), which raises before any
CloudAPI call when no scheduler address is recorded, and issues the worker
creation only when construction succeeded. -/
def orchStep (st : OrchState) : OrchCmd → OrchState × List OrchEv
  | .startScheduler a =>
    ({ schedAddr := some a }, [.appCreate, .schedCreate, .schedResolved a])
  | .addWorker n =>
    match (ibmWorkerInit st.schedAddr n "distributed.cli.Nanny" []).2 with
    | .error _ => (st, [])
    | .ok _ => (st, [.workerCreate n])

/-- The event trace of a command sequence. -/
def orchRun (st : OrchState) : List OrchCmd → List OrchEv
  | [] => []
  | c :: cs => (orchStep st c).2 ++ orchRun (orchStep st c).1 cs

/-! ### Helper lemmas about the readiness poll -/

theorem ibmPoll_none_of_never_ready (get_app : Nat → IbmAppResp)
    (h : ∀ j, (get_app j).status ≠ "ready") :
    ∀ fuel k, ibmPoll get_app fuel k = none := by
  intro fuel
  induction fuel with
  | zero => intro k; rfl
  | succ n ih =>
    intro k
    rw [ibmPoll, if_neg (h k)]
    exact ih (k + 1)

theorem ibmPoll_isSome_of_ready (get_app : Nat → IbmAppResp) :
    ∀ (fuel k0 k : Nat), k0 ≤ k → k < k0 + fuel → (get_app k).status = "ready" →
    ∃ r, ibmPoll get_app fuel k0 = some r := by
  intro fuel
  induction fuel with
  | zero => intro k0 k h1 h2 _; omega
  | succ n ih =>
    intro k0 k h1 h2 hready
    by_cases h0 : (get_app k0).status = "ready"
    · exact ⟨get_app k0, by rw [ibmPoll, if_pos h0]⟩
    · have hne : k0 ≠ k := fun he => h0 (he ▸ hready)
      obtain ⟨r, hr⟩ := ih (k0 + 1) k (by omega) (by omega) hready
      exact ⟨r, by rw [ibmPoll, if_neg h0]; exact hr⟩

/-! ### Claim theorems -/

/-- Claim C1: for every worker created after the scheduler has started
successfully, the worker's command contains the scheduler's resolved internal
address verbatim — Fly workers embed `self.scheduler` in the joined command
string, and IBM workers embed the URL `ws://{cluster.scheduler_internal_ip}:80`
as an element of the command list. -/
theorem C1_worker_command_embeds_scheduler_address :
    (∀ set_env scheduler cli,
      containsVerbatim (flyWorkerCommand set_env scheduler cli) scheduler)
    ∧ (∀ ip name wc wo, ∃ ws,
        ibmWorkerInit (some ip) name wc wo = ([], .ok ws)
        ∧ ∃ e ∈ ws.command, containsVerbatim e ip) := by
  constructor
  · intro se sched cli
    simpa [flyWorkerCommand] using pyJoin_containsVerbatim [se, "dask", "worker"] sched cli
  · intro ip name wc wo
    refine ⟨_, rfl, ⟨"ws://" ++ ip ++ ":80", ?_, ⟨"ws://", ":80", rfl⟩⟩⟩
    simp

/-- Claim C3: the CPU count and memory size accepted as constructor
parameters are discarded — `FlyMachine` always holds `cpus = 1`,
`memory_mb = 1024` (and its creation payload's guest therefore always carries
them), and both IBM creation payloads always carry `scale_cpu_limit = "0.25"`
and `scale_memory_limit = "1G"`, whatever the arguments. -/
theorem C3_resources_hardcoded :
    (∀ tok app_name region vm_size memory_mb cpus image (d : EnvMap) cfg cmd,
      ∃ st, flyMachineInit (some tok) app_name region vm_size memory_mb cpus image
              (some d) cfg = ([], .ok st)
        ∧ st.cpus = 1 ∧ st.memory_mb = 1024
        ∧ (flyMachineConfigOf st cmd).guest =
            { cpu_kind := "shared", cpus := 1, memory_mb := 1024 })
    ∧ (∀ pid image name rc,
        (ibmSchedPayload pid image name rc).scale_cpu_limit = "0.25"
        ∧ (ibmSchedPayload pid image name rc).scale_memory_limit = "1G")
    ∧ (∀ pid image name rc,
        (ibmWorkerPayload pid image name rc).scale_cpu_limit = "0.25"
        ∧ (ibmWorkerPayload pid image name rc).scale_memory_limit = "1G") := by
  refine ⟨?_, fun pid image name rc => ⟨rfl, rfl⟩, fun pid image name rc => ⟨rfl, rfl⟩⟩
  intro tok an r v m c i d cfg cmd
  exact ⟨_, rfl, rfl, rfl, rfl⟩

/-- Claim C4: `create_app` on provider failure records the failed status,
re-raises the same error and issues exactly one create call (no retry); on
success it stores the assigned name, and any later call returns immediately
with zero CloudAPI calls. -/
theorem C4_create_app_failure_and_memoisation :
    (∀ app n fresh api,
      flyCreateApp ⟨app, some n⟩ fresh api = (⟨app, some n⟩, [], .ok ()))
    ∧ (∀ app fresh e,
      flyCreateApp ⟨app, none⟩ fresh (fun _ => .error e) =
        (⟨some .failedStr, none⟩, [.createApp fresh], .error e))
    ∧ (∀ app fresh h fresh' api',
      flyCreateApp ⟨app, none⟩ fresh (fun _ => .ok h) =
        (⟨some (.handle h), some fresh⟩, [.createApp fresh], .ok ())
      ∧ flyCreateApp ⟨some (.handle h), some fresh⟩ fresh' api' =
        (⟨some (.handle h), some fresh⟩, [], .ok ())) :=
  ⟨fun _ _ _ _ => rfl, fun _ _ _ => rfl, fun _ _ _ _ _ => ⟨rfl, rfl⟩⟩

/-- A concrete machine state whose machine was created, for the C5
counterexample. -/
def c5MachineState : FlyMachineState :=
  { machine := some { id := "148e123", private_ip := "fdaa:0:1" }
    app_name := some "dask-0a1b2c3d"
    api_token := "tok"
    region := none
    vm_size := none
    cpus := 1
    memory_mb := 1024
    image := none
    env_vars := fun _ => none
    set_env := ""
    address := none
    host := none
    internal_ip := none
    port := none
    external_address := none }

/-- Claim C5 counterexample: after a successful teardown the machine/app-name
fields are not cleared, so running `destroy_vm` (resp. `delete_app`) a second
time in a row issues one CloudAPI delete call again — not zero as claimed. -/
theorem C5_counterexample :
    ((flyDestroyVm (flyDestroyVm c5MachineState).1).2).length = 1
    ∧ ((flyDeleteApp (flyDeleteApp ⟨none, some "dask-0a1b2c3d"⟩).1).2).length = 1
    ∧ (1 : Nat) ≠ 0 :=
  ⟨rfl, rfl, by decide⟩

/-- Claim C5 (amended): destroying an instance that was never created (and
deleting an app whose name was never assigned) is a successful no-op issuing
zero CloudAPI calls; but a successful `destroy_vm`/`delete_app` leaves the
`machine`/`app_name` fields recorded, so a repeated teardown issues the same
delete call again rather than zero calls. -/
theorem C5_destroy_idempotence_amended :
    (∀ st : FlyMachineState,
      flyDestroyVm { st with machine := none } = ({ st with machine := none }, []))
    ∧ (∀ (st : FlyMachineState) m,
      flyDestroyVm { st with machine := some m } =
        ({ st with machine := some m }, [.flyDeleteMachine st.app_name m.id true]))
    ∧ (∀ st : FlyClusterState,
      flyDeleteApp { st with app_name := none } = ({ st with app_name := none }, []))
    ∧ (∀ (st : FlyClusterState) n,
      flyDeleteApp { st with app_name := some n } =
        ({ st with app_name := some n }, [.deleteApp n])) :=
  ⟨fun _ => rfl, fun _ _ => rfl, fun _ => rfl, fun _ _ => rfl⟩

/-- Claim C9: `FlyMachine.__init__` updates the `env_vars` mapping so that
`EXTRA_PIP_PACKAGES` contains the substring `"dask[distributed]"` afterwards
(appending to an existing entry or creating one), and — the membership test
being made unconditionally — construction with `env_vars = None` fails with a
`TypeError` (in an otherwise valid construction, i.e. with an API token). -/
theorem C9_extra_pip_packages_mutation :
    (∀ t an r v m c i cfg,
      flyMachineInit (some t) an r v m c i none cfg =
        ([], .error (.typeError "argument of type NoneType is not iterable")))
    ∧ (∀ t an r v m c i cfg (d : EnvMap), ∃ st v',
        flyMachineInit (some t) an r v m c i (some d) cfg = ([], .ok st)
        ∧ st.env_vars "EXTRA_PIP_PACKAGES" = some v'
        ∧ containsVerbatim v' "dask[distributed]") := by
  refine ⟨fun _ _ _ _ _ _ _ _ => rfl, ?_⟩
  intro t an r v m c i cfg d
  rcases hd : d "EXTRA_PIP_PACKAGES" with _ | v0
  · refine ⟨_, " dask[distributed]", rfl, ?_, ⟨" ", "", by rfl⟩⟩
    show flyEnvUpdate d "EXTRA_PIP_PACKAGES" = some " dask[distributed]"
    rw [flyEnvUpdate, hd]
    simp
  · refine ⟨_, v0 ++ "dask[distributed]", rfl, ?_, ⟨v0, "", by rw [String.append_empty]⟩⟩
    show flyEnvUpdate d "EXTRA_PIP_PACKAGES" = some (v0 ++ "dask[distributed]")
    rw [flyEnvUpdate, hd]
    simp

/-- Claim C10: `IBMCodeEngine.destroy_vm` selects the delete operation solely
from the instance name: it issues `delete_job_run` exactly when the name
contains the substring `"worker"`, and `delete_app` exactly otherwise. -/
theorem C10_destroy_dispatch_by_name (pid name : String) :
    (ibmDestroyVm pid name = .ibmDeleteJobRun pid name ↔ containsVerbatim name "worker")
    ∧ (ibmDestroyVm pid name = .ibmDeleteApp pid name ↔ ¬ containsVerbatim name "worker") := by
  by_cases h : pyInStr "worker" name = true
  · have hc : containsVerbatim name "worker" := (pyInStr_iff _ _).mp h
    rw [ibmDestroyVm, if_pos h]
    exact ⟨iff_of_true rfl hc,
           iff_of_false (fun heq => ApiCall.noConfusion heq) (not_not_intro hc)⟩
  · have hc : ¬ containsVerbatim name "worker" := fun cv => h ((pyInStr_iff _ _).mpr cv)
    rw [ibmDestroyVm, if_neg h]
    exact ⟨iff_of_false (fun heq => ApiCall.noConfusion heq) hc, iff_of_true rfl hc⟩

/-! ### C2: address resolution has no timeout -/

theorem ibmCreateVm_inl_eq (pid img nm s : String) (pc : List String)
    (get_app : Nat → IbmAppResp) (fuel : Nat)
    (hcmd : ibmPythonCommand s = .ok pc) :
    ibmCreateVm pid img nm (.inl s) get_app fuel =
      ibmCreateVmSchedGo pid img nm pc get_app fuel := by
  show (match ibmPythonCommand s with
        | .error e => ([], some (.error e))
        | .ok pc => ibmCreateVmSchedGo pid img nm pc get_app fuel) =
      ibmCreateVmSchedGo pid img nm pc get_app fuel
  rw [hcmd]

theorem ibmCreateVm_inl_err (pid img nm s : String) (err : PyErr)
    (get_app : Nat → IbmAppResp) (fuel : Nat)
    (hcmd : ibmPythonCommand s = .error err) :
    ibmCreateVm pid img nm (.inl s) get_app fuel = ([], some (.error err)) := by
  show (match ibmPythonCommand s with
        | .error e => ([], some (.error e))
        | .ok pc => ibmCreateVmSchedGo pid img nm pc get_app fuel) =
      ([], some (.error err))
  rw [hcmd]

theorem ibmCreateVmSchedGo_snd_none (pid img nm : String) (pc : List String)
    (get_app : Nat → IbmAppResp) (fuel : Nat)
    (h : ibmPoll get_app fuel 0 = none) :
    (ibmCreateVmSchedGo pid img nm pc get_app fuel).2 = none := by
  unfold ibmCreateVmSchedGo
  rw [h]

theorem ibmCreateVmSchedGo_snd_some (pid img nm : String) (pc : List String)
    (get_app : Nat → IbmAppResp) (fuel : Nat) (app : IbmAppResp)
    (h : ibmPoll get_app fuel 0 = some app) :
    (ibmCreateVmSchedGo pid img nm pc get_app fuel).2 =
      some (match pyIndex1 (pySplitDslash app.endpoint_internal) with
        | .error e => .error e
        | .ok internal_url =>
          match pyIndex1 (pySplitDslash app.endpoint) with
          | .error e => .error e
          | .ok public_url => .ok (some internal_url, some public_url)) := by
  unfold ibmCreateVmSchedGo
  rw [h]

/-- The never-ready `get_app` response used by the C2 counterexample. -/
def c2PendingResp : IbmAppResp :=
  { status := "deploying"
    name := "dask-scheduler"
    endpoint_internal := "https://internal.local"
    endpoint := "https://public.cloud" }

/-- Claim C2 counterexample: with a provider that never reports a ready
instance, the scheduler-path `create_vm` is still inside its `while True`
poll after 1000 one-second polls — far beyond any configured timeout — and
has neither returned nor failed with `ProvisioningTimeout` (no timeout exists
in the code). -/
theorem C2_counterexample :
    (ibmCreateVm "proj" "img" "dask-scheduler"
        (.inl "python -m distributed.cli.dask_scheduler")
        (fun _ => c2PendingResp) 1000).2 = none := by
  rw [ibmCreateVm_inl_eq "proj" "img" "dask-scheduler"
        "python -m distributed.cli.dask_scheduler"
        ["python", "-m", "distributed.cli.dask_scheduler",
         "--protocol", "ws,tcp", "--port", "8786,8001"]
        (fun _ => c2PendingResp) 1000 rfl]
  exact ibmCreateVmSchedGo_snd_none _ _ _ _ _ _
    (ibmPoll_none_of_never_ready _ (fun j => by decide) 1000 0)

/-- Claim C2 (amended): the readiness polling has no timeout and no
`ProvisioningTimeout` exists — with a provider that never reports ready, the
IBM scheduler-path `create_vm` polls unboundedly (still polling after any
number of polls, never an error); when the provider reports ready within the
polling horizon an outcome is produced; the returned address pair is never
partially populated (worker path: both `None`; successful scheduler path:
both populated); and Fly's `wait_for_scheduler` loop guard
`not asyncio.create_task(...)` is constantly false, so it performs zero
sleep iterations whatever the socket state. -/
theorem C2_resolve_address_amended :
    (∀ pid img nm s pc get_app fuel, ibmPythonCommand s = .ok pc →
      (∀ j, (get_app j).status ≠ "ready") →
      (ibmCreateVm pid img nm (.inl s) get_app fuel).2 = none)
    ∧ (∀ pid img nm s pc get_app fuel k, ibmPythonCommand s = .ok pc →
        (get_app k).status = "ready" → k < fuel →
        ∃ r, (ibmCreateVm pid img nm (.inl s) get_app fuel).2 = some r)
    ∧ (∀ pid img nm pc get_app fuel,
        (ibmCreateVm pid img nm (.inr pc) get_app fuel).2 = some (.ok (none, none)))
    ∧ (∀ pid img nm cmd get_app fuel i e,
        (ibmCreateVm pid img nm cmd get_app fuel).2 = some (.ok (i, e)) →
        (i.isSome ∧ e.isSome) ∨ (i = none ∧ e = none))
    ∧ (∀ sock fuel, 0 < fuel → flyWaitForSchedulerIters sock fuel 0 = some 0) := by
  refine ⟨?_, ?_, fun _ _ _ _ _ _ => rfl, ?_, ?_⟩
  · intro pid img nm s pc get_app fuel hcmd hnever
    rw [ibmCreateVm_inl_eq _ _ _ _ _ _ _ hcmd]
    exact ibmCreateVmSchedGo_snd_none _ _ _ _ _ _
      (ibmPoll_none_of_never_ready _ hnever fuel 0)
  · intro pid img nm s pc get_app fuel k hcmd hready hk
    rw [ibmCreateVm_inl_eq _ _ _ _ _ _ _ hcmd]
    obtain ⟨r0, hr0⟩ :=
      ibmPoll_isSome_of_ready get_app fuel 0 k (Nat.zero_le k) (by omega) hready
    refine ⟨(match pyIndex1 (pySplitDslash r0.endpoint_internal) with
       | .error e => .error e
       | .ok internal_url =>
         match pyIndex1 (pySplitDslash r0.endpoint) with
         | .error e => .error e
         | .ok public_url => .ok (some internal_url, some public_url)), ?_⟩
    unfold ibmCreateVmSchedGo
    rw [hr0]
  · intro pid img nm cmd get_app fuel i e h
    cases cmd with
    | inr pc =>
      simp only [ibmCreateVm, Option.some.injEq, Except.ok.injEq, Prod.mk.injEq] at h
      exact Or.inr ⟨h.1.symm, h.2.symm⟩
    | inl s =>
      cases hcmd : ibmPythonCommand s with
      | error err =>
        rw [ibmCreateVm_inl_err _ _ _ _ _ _ _ hcmd] at h
        exact absurd h (by simp)
      | ok pc =>
        rw [ibmCreateVm_inl_eq _ _ _ _ _ _ _ hcmd] at h
        cases hp : ibmPoll get_app fuel 0 with
        | none =>
          rw [ibmCreateVmSchedGo_snd_none _ _ _ _ _ _ hp] at h
          exact absurd h (by simp)
        | some app =>
          rw [ibmCreateVmSchedGo_snd_some _ _ _ _ _ _ _ hp] at h
          cases hi : pyIndex1 (pySplitDslash app.endpoint_internal) with
          | error e1 =>
            simp only [hi, Option.some.injEq] at h
            exact Except.noConfusion h
          | ok iu =>
            cases he : pyIndex1 (pySplitDslash app.endpoint) with
            | error e2 =>
              simp only [hi, he, Option.some.injEq] at h
              exact Except.noConfusion h
            | ok pu =>
              simp only [hi, he, Option.some.injEq, Except.ok.injEq, Prod.mk.injEq] at h
              exact Or.inl ⟨h.1 ▸ rfl, h.2 ▸ rfl⟩
  · intro sock fuel hf
    cases fuel with
    | zero => omega
    | succ m => rfl

/-- Witness for the amended C2 theorem at concrete inputs. -/
theorem C2_resolve_address_amended_witness :
    (ibmCreateVm "proj" "img" "dask-scheduler"
        (.inl "python -m distributed.cli.dask_scheduler")
        (fun _ => c2PendingResp) 5).2 = none
    ∧ flyWaitForSchedulerIters (fun _ => false) 1 0 = some 0 :=
  ⟨C2_resolve_address_amended.1 "proj" "img" "dask-scheduler"
      "python -m distributed.cli.dask_scheduler"
      ["python", "-m", "distributed.cli.dask_scheduler",
       "--protocol", "ws,tcp", "--port", "8786,8001"]
      (fun _ => c2PendingResp) 5 rfl
      (fun _ => (by decide : c2PendingResp.status ≠ "ready")),
   C2_resolve_address_amended.2.2.2.2 (fun _ => false) 1 (by decide)⟩

/-! ### C6: no worker creation before the scheduler address is recorded -/

theorem orchRun_worker_after_resolve : ∀ (cmds : List OrchCmd) (st : OrchState),
    st.schedAddr = none →
    ∀ i n, (orchRun st cmds).get? i = some (.workerCreate n) →
    ∃ j a, j < i ∧ (orchRun st cmds).get? j = some (.schedResolved a) := by
  intro cmds
  induction cmds with
  | nil => intro st _ i n hi; simp [orchRun] at hi
  | cons c cs ih =>
    intro st hst i n hi
    cases c with
    | startScheduler a =>
      have htr : orchRun st (.startScheduler a :: cs) =
          .appCreate :: .schedCreate :: .schedResolved a ::
            orchRun ⟨some a⟩ cs := rfl
      rw [htr] at hi
      rcases i with _ | _ | _ | k
      · simp at hi
      · simp at hi
      · simp at hi
      · exact ⟨2, a, by omega, by rw [htr]; rfl⟩
    | addWorker n' =>
      have hstep : orchStep st (.addWorker n') = (st, []) := by
        rw [orchStep, hst]
        rfl
      have htr : orchRun st (.addWorker n' :: cs) = orchRun st cs := by
        rw [orchRun, hstep]
        rfl
      rw [htr] at hi
      obtain ⟨j, a, hj, hja⟩ := ih st hst i n hi
      exact ⟨j, a, hj, by rw [htr]; exact hja⟩

/-- Claim C6: in every execution of the (spec-modelled) orchestrator, no
worker instance-creation call is issued before the scheduler's internal
address has been resolved and recorded — every `workerCreate` event in the
trace is strictly preceded by a `schedResolved` event.  (The source-level
ingredient is `IBMCodeEngineWorker.__init__`, which fails before issuing any
CloudAPI call while the recorded address is absent.) -/
theorem C6_no_worker_create_before_resolve (cmds : List OrchCmd) (i : Nat) (n : String)
    (hi : (orchRun ⟨none⟩ cmds).get? i = some (.workerCreate n)) :
    ∃ j a, j < i ∧ (orchRun ⟨none⟩ cmds).get? j = some (.schedResolved a) :=
  orchRun_worker_after_resolve cmds ⟨none⟩ rfl i n hi

/-- The command sequence used by the C6 witness. -/
def c6Cmds : List OrchCmd := [.startScheduler "10.0.0.1", .addWorker "dask-1-worker-a1"]

/-- Witness for C6 at a concrete run: scheduler start then one worker. -/
theorem C6_no_worker_create_before_resolve_witness :
    ∃ j a, j < 3 ∧ (orchRun ⟨none⟩ c6Cmds).get? j = some (.schedResolved a) :=
  C6_no_worker_create_before_resolve c6Cmds 3 "dask-1-worker-a1" rfl

/-! ### C7: out-of-order invocation fails with builtin errors, not PreconditionError -/

/-- Claim C7 counterexample: constructing an IBM worker before the scheduler
address is recorded fails with an `AttributeError`, and constructing a Fly
machine without an API token fails with a `ValueError` — in both cases with
zero CloudAPI calls, but the error is a Python builtin, not the
`PreconditionError` the claim names (no such class exists in the code). -/
theorem C7_counterexample :
    ibmWorkerInit none "dask-1-worker-a1" "distributed.cli.Nanny" [] =
      ([], .error (.attributeError ibmSchedIpAttr))
    ∧ flyMachineInit none none none none none none none none "cfg" =
      ([], .error (.valueError "Fly.io API token must be provided"))
    ∧ PyErr.attributeError ibmSchedIpAttr ≠ PyErr.preconditionError
    ∧ PyErr.valueError "Fly.io API token must be provided" ≠ PyErr.preconditionError :=
  ⟨rfl, rfl, by decide, by decide⟩

/-- Claim C7 (amended): invoking the worker constructor before
`start_scheduler` has recorded the scheduler address fails immediately with
an `AttributeError` (IBM), and constructing an instance before credentials
are configured fails immediately with a `ValueError` (Fly); both fail before
issuing any CloudAPI call.  The code defines no `PreconditionError`. -/
theorem C7_precondition_failures_amended :
    (∀ an r v m c i e cfg,
      flyMachineInit none an r v m c i e cfg =
        ([], .error (.valueError "Fly.io API token must be provided")))
    ∧ (∀ nm wc wo,
      ibmWorkerInit none nm wc wo = ([], .error (.attributeError ibmSchedIpAttr))) :=
  ⟨fun _ _ _ _ _ _ _ _ => rfl, fun _ _ _ => rfl⟩

/-! ### C8: concurrent create_app is not at-most-once -/

/-- Claim C8 counterexample: two concurrent `create_app` invocations whose
steps interleave at the awaited provider call (A checks, B checks, A commits,
B commits) both observe `app_name = None` and both issue a create call — two
CloudAPI create calls, not the exactly-one the claim states.  There is no
in-progress guard in the code. -/
theorem C8_counterexample :
    (flyRunPair (fun n => .ok ("handle-" ++ n)) "dask-aaaa" "dask-bbbb"
        [false, true, false, true] (⟨none, none⟩, [], .entry, .entry)).2.1 =
      [.createApp "dask-aaaa", .createApp "dask-bbbb"]
    ∧ [ApiCall.createApp "dask-aaaa", ApiCall.createApp "dask-bbbb"].length ≠ 1 :=
  ⟨rfl, by decide⟩

theorem flySeqCreateApp_of_assigned (api : String → Except PyErr String)
    (fresh : Nat → String) :
    ∀ (n : Nat) (app : Option FlyAppVal) (a : String),
      flySeqCreateApp api fresh n ⟨app, some a⟩ = (⟨app, some a⟩, []) := by
  intro n
  induction n with
  | zero => intro app a; rfl
  | succ m ih =>
    intro app a
    show (let r := flyCreateApp ⟨app, some a⟩ (fresh m) api
          let rest := flySeqCreateApp api fresh m r.1
          (rest.1, r.2.1 ++ rest.2)) = (⟨app, some a⟩, [])
    rw [show flyCreateApp ⟨app, some a⟩ (fresh m) api =
          (⟨app, some a⟩, [], .ok ()) from rfl]
    simp [ih app a]

/-- Claim C8 (amended): `create_app` is at-most-once only *sequentially* —
invoked `N ≥ 1` times one after another (successful provider), exactly one
create call is issued in total, because the first call records `app_name` and
every later call returns immediately.  Interleaved concurrent calls can each
issue a create call (see the counterexample): the status-field gate exists
(`app_name`), but no in-progress guard does. -/
theorem C8_sequential_create_app_once (h : String → String) (fresh : Nat → String) :
    ∀ N : Nat,
      (flySeqCreateApp (fun n => .ok (h n)) fresh N ⟨none, none⟩).2.length =
        if N = 0 then 0 else 1 := by
  intro N
  cases N with
  | zero => rfl
  | succ m =>
    show (let r := flyCreateApp ⟨none, none⟩ (fresh m) (fun n => .ok (h n))
          let rest := flySeqCreateApp (fun n => .ok (h n)) fresh m r.1
          (rest.1, r.2.1 ++ rest.2)).2.length = _
    rw [show flyCreateApp ⟨none, none⟩ (fresh m) (fun n => .ok (h n)) =
          (⟨some (.handle (h (fresh m))), some (fresh m)⟩,
           [.createApp (fresh m)], .ok ()) from rfl]
    simp [flySeqCreateApp_of_assigned]
